import Mathlib

/-!
Verification development for the ResidentChatBot repository (src/main.py,
src/registration.py): a shallow embedding of its SQLite-backed residency
store and of the message/callback handlers that the specification's claims
are about, followed by theorems settling each claim.

Conventions of the embedding:
* The three SQLite tables (houses, users, cars) are lists of rows in rowid
  order; `INSERT` appends, `UPDATE ... WHERE` maps over matching rows, and
  `fetchone`/`find?` returns the first matching row.
* SQL `NULL` is `Option.none`.  SQL equality `col = ?` with a NULL operand
  matches nothing (`sqlEqOpt`), while `col IS NULL` is an explicit test.
* The in-memory `pending_users` dictionary (the Candidate Session store) is
  an association list keyed by the external user id.
* Chat-transport side effects (send/kick/unban/restrict) are recorded as
  lists of recipients or (chat, user) pairs; message copy is out of scope
  of the specification, so only the targets and counts are tracked.
* Transport calls are modelled as succeeding; in the source a failure is
  logged and the handler continues, which does not change any of the
  store/session effects proved about below.
-/

/-- Row of the `houses` table (main.py, CREATE TABLE houses). -/
structure House where
  id : Nat
  chat_id : Int
  house_name : Option String
  house_city : Option String
  house_address : Option String
  date_add : Option String
  date_del : Option String
deriving Repr, DecidableEq

/-- Row of the `users` table (main.py, CREATE TABLE users): one Resident
record per (tg_id, house) pair. -/
structure UserRow where
  id : Nat
  tg_id : Int
  name : Option String
  surname : Option String
  house : Option Nat
  apartment : Option String
  phone : Option String
  date_add : Option String
  date_del : Option String
deriving Repr, DecidableEq

/-- Row of the `cars` table (main.py, CREATE TABLE cars): `user` is the
foreign key to `users.id`. -/
structure CarRow where
  id : Nat
  user : Nat
  autonum : String
  date_add : Option String
  date_del : Option String
deriving Repr, DecidableEq

/-- The whole SQLite database, rows in rowid order. -/
structure DB where
  houses : List House
  users : List UserRow
  cars : List CarRow
deriving Repr, DecidableEq

/-- One entry of the in-memory `pending_users` dictionary. -/
structure Session where
  status : Option String
  source_chat_id : Option Int
  reason : Option String
deriving Repr, DecidableEq

/-- The `pending_users` dictionary, keyed by external user id. -/
abbrev PendingMap := List (Int × Session)

/-- Dictionary lookup `pending_users.get(uid)`. -/
def pfind (p : PendingMap) (uid : Int) : Option Session :=
  (p.find? (fun e => e.1 == uid)).map (fun e => e.2)

/-- Dictionary assignment `pending_users[uid] = s`. -/
def pset (p : PendingMap) (uid : Int) (s : Session) : PendingMap :=
  if p.any (fun e => e.1 == uid) then
    p.map (fun e => if e.1 == uid then (uid, s) else e)
  else p ++ [(uid, s)]

/-- `del pending_users[uid]`. -/
def perase (p : PendingMap) (uid : Int) : PendingMap :=
  p.filter (fun e => !(e.1 == uid))

/-- SQL equality `col = ?` on nullable integers: a NULL operand never
matches (`NULL = x` is not true in SQLite). -/
def sqlEqOpt (a b : Option Nat) : Bool :=
  match a, b with
  | some x, some y => x == y
  | _, _ => false

/-- The "active" test used throughout main.py:
`date_del IS NULL OR date_del = ''`. -/
def isActiveDel (d : Option String) : Bool :=
  match d with
  | none => true
  | some s => s == ""

/-- `SELECT id FROM houses WHERE chat_id = ?` (first match). -/
def findHouse (db : DB) (chatId : Int) : Option House :=
  db.houses.find? (fun h => h.chat_id == chatId)

/-- Fresh AUTOINCREMENT id for the houses table. -/
def nextHouseId (db : DB) : Nat :=
  (db.houses.foldl (fun m h => max m h.id) 0) + 1

/-- Fresh AUTOINCREMENT id for the users table. -/
def nextUserId (db : DB) : Nat :=
  (db.users.foldl (fun m u => max m u.id) 0) + 1

/-- Fresh AUTOINCREMENT id for the cars table. -/
def nextCarId (db : DB) : Nat :=
  (db.cars.foldl (fun m c => max m c.id) 0) + 1

/-- The cached source chat of a session, when both the entry and the field
are present (`user_id in pending_users and pending_users[user_id].get('source_chat_id')`). -/
def sessionSource (p : PendingMap) (uid : Int) : Option Int :=
  (pfind p uid).bind (fun s => s.source_chat_id)

/-- The join `SELECT h.chat_id, h.house_name FROM houses h JOIN users u ON
u.house = h.id WHERE u.tg_id = ?` from `get_source_chat_id`: one pair per
user row of `uid` whose house reference resolves, in row order.  Note the
query does not filter on `date_del`. -/
def userHouseRows (db : DB) (uid : Int) : List (Int × Option String) :=
  db.users.filterMap (fun u =>
    if u.tg_id == uid then
      match u.house with
      | some hid =>
          (db.houses.find? (fun h => h.id == hid)).map
            (fun h => (h.chat_id, h.house_name))
      | none => none
    else none)

/-- Outcome of `get_source_chat_id` (main.py:157): the resolved chat id (if
any), the possibly updated `pending_users`, and the chat-id options offered
to the administrator via the inline keyboard in the ambiguous case. -/
structure ResolveResult where
  result : Option Int
  pending : PendingMap
  adminOptions : List Int
deriving Repr, DecidableEq

/-- Update the session of `uid`, preserving other fields, caching `c` as
its source chat. -/
def cacheSource (p : PendingMap) (uid : Int) (c : Int) : PendingMap :=
  let s := (pfind p uid).getD ⟨none, none, none⟩
  pset p uid {s with source_chat_id := some c}

/-- `get_source_chat_id(user_id)` (main.py:157): return the cached source
chat if present; otherwise query the houses the user has a Resident row in.
Exactly one match is cached and returned; several matches are surfaced to
the administrator and `None` is returned; no match returns `None`. -/
def get_source_chat_id (p : PendingMap) (db : DB) (uid : Int) : ResolveResult :=
  match sessionSource p uid with
  | some c => ⟨some c, p, []⟩
  | none =>
    match userHouseRows db uid with
    | [] => ⟨none, p, []⟩
    | [r] => ⟨some r.1, cacheSource p uid r.1, []⟩
    | rs => ⟨none, p, rs.map (fun r => r.1)⟩

/-!  ## Registration workflow (src/registration.py)  -/

/-- Values of the `user_state` dictionary: either a plain status string or
the car-collection dictionary `{"car_count": c, "current_car": k}`. -/
inductive UserState where
  | status : String → UserState
  | carLoop : Nat → Nat → UserState
deriving Repr, DecidableEq

/-- Which handler is registered for the next inbound message of the chat
(the `register_next_step_handler_by_chat_id` target), or the state the flow
ends in. -/
inductive RegStep where
  | name
  | surname
  | apartment
  | phone
  | carCount
  | carNumber
  | photo
  | halted
deriving Repr, DecidableEq

/-- Outcome of a validating step: either re-prompt (the same step handler
is registered again) or proceed with a value. -/
inductive StepOutcome (α : Type) where
  | reprompt : StepOutcome α
  | ok : α → StepOutcome α
deriving Repr, DecidableEq

/-- Python `str.strip()`: drop leading and trailing whitespace.  (Defined
on the character list so that it reduces inside the kernel; the whitespace
set covers the blank, tab and newline characters occurring in inputs.) -/
def pyStrip (s : String) : String :=
  String.mk (((s.data.dropWhile Char.isWhitespace).reverse.dropWhile
    Char.isWhitespace).reverse)

/-- Python `str.lower()` restricted to the ASCII and Russian alphabets (the
only ones occurring in the blocklist); other characters are unchanged. -/
def lowerRuChar (c : Char) : Char :=
  if decide (65 ≤ c.toNat ∧ c.toNat ≤ 90) then Char.ofNat (c.toNat + 32)
  else if decide (0x410 ≤ c.toNat ∧ c.toNat ≤ 0x42F) then Char.ofNat (c.toNat + 32)
  else if c.toNat = 0x401 then Char.ofNat 0x451
  else c

/-- Python `s.lower()` on a string, via `lowerRuChar`. -/
def lowerRu (s : String) : String :=
  String.mk (s.data.map lowerRuChar)

/-- Python substring containment `pat in s`. -/
def containsSub (s pat : String) : Bool :=
  (List.range (s.length + 1)).any (fun i => pat.data.isPrefixOf (s.data.drop i))

/-- The blocklisted substrings of `process_name` / `process_surname`
(registration.py:103): `['бляд', 'хуй', 'пизд', 'сука']`. -/
def banned_words : List String := ["бляд", "хуй", "пизд", "сука"]

/-- The validation shared by `process_name` and `process_surname`
(registration.py:97-108, 178-188), applied to the already trimmed text:
reject when longer than 50 characters or when the lowercased text contains
a blocklisted substring.  There is no minimum length. -/
def nameRejected (name : String) : Bool :=
  name.length > 50 || banned_words.any (fun bad => containsSub (lowerRu name) bad)

/-- Digit-sequence value, most significant first. -/
def digitsToNat (l : List Char) : Nat :=
  l.foldl (fun acc c => acc * 10 + (c.toNat - 48)) 0

/-- Sign-applied digit parse: `none` when the digit part is empty or holds
a non-digit. -/
def parsePyIntCore (sign : Int) (digits : List Char) : Option Int :=
  if digits.isEmpty then none
  else if digits.all Char.isDigit then some (sign * (digitsToNat digits : Int))
  else none

/-- Python `int(s)` on ASCII strings: an optional single sign followed by
one or more decimal digits.  (Python also accepts underscores between
digits and non-ASCII digits; no such input occurs in the claims.) -/
def parsePyInt (s : String) : Option Int :=
  match s.data with
  | [] => none
  | c :: rest =>
    if c = '-' then parsePyIntCore (-1) rest
    else if c = '+' then parsePyIntCore 1 rest
    else parsePyIntCore 1 (c :: rest)

/-- The house lookup-or-create of `process_name` (registration.py:119-132):
when a source chat is known, reuse its `houses` row or insert a fresh one
with `date_add = now`. -/
def ensureHouse (db : DB) (source : Option Int) (now : String) : Option Nat × DB :=
  match source with
  | none => (none, db)
  | some c =>
    match db.houses.find? (fun h => h.chat_id == c) with
    | some h => (some h.id, db)
    | none =>
      let nid := nextHouseId db
      (some nid,
       {db with houses := db.houses ++ [⟨nid, c, none, none, none, some now, none⟩]})

/-- The user lookup of `process_name` (registration.py:134-139): by
`(tg_id, house)` when a house is known, else by `tg_id` with
`house IS NULL`. -/
def findUserRowByKey (db : DB) (uid : Int) (houseId : Option Nat) : Option UserRow :=
  match houseId with
  | none => db.users.find? (fun u => u.tg_id == uid && u.house == none)
  | some hid => db.users.find? (fun u => u.tg_id == uid && u.house == some hid)

/-- The row function of `UPDATE users SET name = ?, date_add = ? WHERE
id = ?` (registration.py:146). -/
def updNameRow (name now : String) (rid : Nat) (u : UserRow) : UserRow :=
  if u.id == rid then {u with name := some name, date_add := some now} else u

/-- The store effect of `process_name` (registration.py:110-149) for an
accepted name: ensure the house, then either
`INSERT INTO users (tg_id, name) VALUES (?, ?)` — which leaves `house`,
`date_add` and `date_del` NULL — or
`UPDATE users SET name = ?, date_add = ? WHERE id = ?` on the found row,
which does not touch `date_del`. -/
def process_name_db (db : DB) (uid : Int) (name : String) (source : Option Int)
    (now : String) : DB :=
  let hd := ensureHouse db source now
  let db1 := hd.2
  match findUserRowByKey db1 uid hd.1 with
  | none =>
    {db1 with users := db1.users ++
      [⟨nextUserId db1, uid, some name, none, none, none, none, none, none⟩]}
  | some r =>
    {db1 with users := db1.users.map (updNameRow name now r.id)}

/-- `process_name` (registration.py:92-163): trim, validate, then commit;
on validation failure the same step is registered again (`reprompt`). -/
def process_name_step (db : DB) (uid : Int) (source : Option Int) (now : String)
    (input : String) : StepOutcome DB :=
  let name := pyStrip input
  if nameRejected name then .reprompt
  else .ok (process_name_db db uid name source now)

/-- The store effect of `process_surname` (registration.py:190-195):
`UPDATE users SET surname = ? WHERE tg_id = ?` — every row of the user, in
every house. -/
def process_surname_db (db : DB) (uid : Int) (surname : String) : DB :=
  {db with users := db.users.map (fun u =>
    if u.tg_id == uid then {u with surname := some surname} else u)}

/-- `process_surname` (registration.py:173-209): same validation as the
name step, then the tg_id-wide update. -/
def process_surname_step (db : DB) (uid : Int) (input : String) : StepOutcome DB :=
  let surname := pyStrip input
  if nameRejected surname then .reprompt
  else .ok (process_surname_db db uid surname)

/-- `SELECT MAX(id) FROM users WHERE tg_id = ? AND house IS NULL`
(registration.py:251). -/
def maxNullHouseRow (db : DB) (uid : Int) : Option Nat :=
  (db.users.filter (fun u => u.tg_id == uid && u.house == none)).foldl
    (fun acc u => match acc with
      | none => some u.id
      | some m => some (max m u.id)) none

/-- `UPDATE users SET apartment = ? WHERE tg_id = ?` (registration.py:265):
every row of the user, in every house. -/
def setApartment (db : DB) (uid : Int) (ap : String) : DB :=
  {db with users := db.users.map (fun u =>
    if u.tg_id == uid then {u with apartment := some ap} else u)}

/-- Result of one apartment-step message: the database and the handler
registered next (`apartment` again on a validation failure). -/
structure ApartmentRes where
  db : DB
  next : RegStep
deriving Repr, DecidableEq

/-- `process_apartment` (registration.py:219-291): parse the trimmed text
as an integer, reject (re-prompt the same step) unless it lies in
[1, 10000]; the accepted value is stored as its decimal string.  In the
ordinary flow the update matches by `tg_id` alone and the phone step
follows; in the new-house flow (`awaiting_apartment_new_house`) the row
`MAX(id)` with `house IS NULL` is updated and the photo request follows
(or the flow halts when that row is missing). -/
def process_apartment_step (db : DB) (uid : Int) (newHouse : Bool)
    (input : String) : ApartmentRes :=
  match parsePyInt (pyStrip input) with
  | none => ⟨db, .apartment⟩
  | some n =>
    if n < 1 ∨ n > 10000 then ⟨db, .apartment⟩
    else
      if newHouse then
        match maxNullHouseRow db uid with
        | none => ⟨db, .halted⟩
        | some rid =>
          ⟨{db with users := db.users.map (fun u =>
              if u.id == rid then {u with apartment := some (toString n)} else u)},
           .photo⟩
      else ⟨setApartment db uid (toString n), .phone⟩

/-- The store effect of `process_phone` (registration.py:317-322) for a
valid number: `UPDATE users SET phone = ? WHERE tg_id = ?` — every row of
the user, in every house. -/
def process_phone_db (db : DB) (uid : Int) (phone : String) : DB :=
  {db with users := db.users.map (fun u =>
    if u.tg_id == uid then {u with phone := some phone} else u)}

/-- Messages of the vehicle steps, identified by their role (copy is out of
scope of the specification):
`notMotorist` = "Понятно, вы не автомобилист!",
`finalizePhotoRequest` = the `finalize_questionnaire` text asking for the
residence photo, `carCountRetry` / `carNumberRetry` = the validation-error
re-prompts, `carNumberPrompt k` = the request for the number of car `k`. -/
inductive Msg where
  | notMotorist
  | finalizePhotoRequest
  | carCountRetry
  | carNumberRetry
  | carNumberPrompt : Nat → Msg
deriving Repr, DecidableEq

/-- Result of one car-count message. `ustate = none` means `user_state` was
left unchanged (the re-prompt path does not touch it). -/
structure CarCountRes where
  db : DB
  ustate : Option UserState
  next : RegStep
  messages : List Msg
deriving Repr, DecidableEq

/-- `process_car_count` (registration.py:344-364): parse the trimmed text
as an integer in [0, 10], re-prompting the same step otherwise.  Zero cars
goes straight to `finalize_questionnaire` (photo request, state
`awaiting_photo`); otherwise the car dictionary
`{"car_count": c, "current_car": 1}` is stored and the first plate is
requested. -/
def process_car_count (db : DB) (uid : Int) (input : String) : CarCountRes :=
  match parsePyInt (pyStrip input) with
  | none => ⟨db, none, .carCount, [.carCountRetry]⟩
  | some n =>
    if n < 0 ∨ n > 10 then ⟨db, none, .carCount, [.carCountRetry]⟩
    else if n = 0 then
      ⟨db, some (.status "awaiting_photo"), .photo,
       [.notMotorist, .finalizePhotoRequest]⟩
    else ⟨db, some (.carLoop n.toNat 1), .carNumber, [.carNumberPrompt 1]⟩

/-- Result of one car-number message. -/
structure CarNumRes where
  db : DB
  ustate : UserState
  next : RegStep
  messages : List Msg
deriving Repr, DecidableEq

/-- `process_car_number` (registration.py:376-413): the trimmed plate must
be 3 to 15 characters, else the same step re-prompts.  An accepted plate is
inserted as a `cars` row (with `date_add` left NULL) only when a `users`
row for `tg_id` exists; `current_car` then advances, either asking for the
next plate or finishing via `finalize_questionnaire`.  A non-dictionary
`user_state` would raise a `TypeError` in the source (`halted`). -/
def process_car_number (db : DB) (st : UserState) (uid : Int)
    (input : String) : CarNumRes :=
  let autonum := pyStrip input
  if autonum.length < 3 ∨ autonum.length > 15 then ⟨db, st, .carNumber, [.carNumberRetry]⟩
  else
    let db1 :=
      match db.users.find? (fun u => u.tg_id == uid) with
      | some r => {db with cars := db.cars ++ [⟨nextCarId db, r.id, autonum, none, none⟩]}
      | none => db
    match st with
    | .carLoop c cur =>
      if cur + 1 ≤ c then
        ⟨db1, .carLoop c (cur + 1), .carNumber, [.carNumberPrompt (cur + 1)]⟩
      else ⟨db1, .status "awaiting_photo", .photo, [.finalizePhotoRequest]⟩
    | .status s => ⟨db1, .status s, .halted, []⟩

/-- Feed a list of inbound messages to the car-number step, continuing
while it re-registers itself, as the one-shot continuation loop of the
source does. -/
def runCarNumbers : DB → UserState → Int → List String → CarNumRes
  | db, st, _uid, [] => ⟨db, st, .carNumber, []⟩
  | db, st, uid, i :: rest =>
    let r := process_car_number db st uid i
    match r.next with
    | .carNumber => runCarNumbers r.db r.ustate uid rest
    | _ => r

/-!  ## Approval workflow handlers (src/main.py)  -/

/-- Result of `photo_handler`: the new `user_state` entry for the user
(`none` = unchanged), and how many messages went to the administrator and
to the user. -/
structure PhotoRes where
  ustate : Option UserState
  adminSends : Nat
  userSends : Nat
deriving Repr, DecidableEq

/-- `photo_handler` (main.py:445-512): only when `user_state` is
`awaiting_photo` or `awaiting_new_photo` is anything done — the house is
resolved (deferring with a wait notice when unresolved), the registration
summary and the photo with the three decision buttons go to the
administrator, the user is told the photo was received, and the state
becomes `photo_sent`.  For any other state the handler body is skipped
entirely: no state change and no message at all. -/
def photo_handler (p : PendingMap) (db : DB) (uid : Int)
    (st : Option UserState) (isBot : Bool) : PhotoRes :=
  if st == some (.status "awaiting_photo") || st == some (.status "awaiting_new_photo") then
    if isBot then ⟨some (.status "photo_sent"), 0, 1⟩
    else
      match (get_source_chat_id p db uid).result with
      | none => ⟨none, 0, 1⟩
      | some _ => ⟨some (.status "photo_sent"), 2, 1⟩
  else ⟨none, 0, 0⟩

/-- `pending_users[user_id]['status'] = st`, creating the entry when
missing (as `allow_access` does). -/
def psetStatus (p : PendingMap) (uid : Int) (st : String) : PendingMap :=
  match pfind p uid with
  | some s => pset p uid {s with status := some st}
  | none => pset p uid ⟨some st, none, none⟩

/-- Result of `allow_access`: store, sessions, the chats where posting was
unrestricted, and the recipients of messages in order. -/
structure AllowResult where
  db : DB
  pending : PendingMap
  unrestricts : List (Int × Int)
  sends : List Int
  deferred : Bool
deriving Repr, DecidableEq

/-- The users update of `allow_access` (main.py:556-568): for an existing
`(tg_id, house)` row refresh `date_add` and clear `date_del`; else attach
the user's `house IS NULL` rows to the house, refreshing `date_add` and
clearing `date_del`. -/
def allow_users (db : DB) (uid : Int) (hid : Nat) (now : String) : List UserRow :=
  if db.users.any (fun u => u.tg_id == uid && u.house == some hid) then
    db.users.map (fun u =>
      if u.tg_id == uid && u.house == some hid then
        {u with date_add := some now, date_del := none} else u)
  else
    db.users.map (fun u =>
      if u.tg_id == uid && u.house == none then
        {u with house := some hid, date_add := some now, date_del := none}
      else u)

/-- The cars update of `allow_access` (main.py:570-573):
`UPDATE cars SET date_del = NULL, date_add = ? WHERE user IN (SELECT id
FROM users WHERE tg_id = ?)`, run against the already updated users
table — the user's cars in every house. -/
def allow_cars (uid : Int) (now : String) (users1 : List UserRow)
    (cars : List CarRow) : List CarRow :=
  cars.map (fun car =>
    if users1.any (fun u => u.tg_id == uid && u.id == car.user) then
      {car with date_del := none, date_add := some now}
    else car)

/-- `allow_access` (main.py:517-581): resolve the source chat (deferring
with a wait notice to the user when unresolved); unrestrict posting; set
session status `approved`; when the source chat's house exists, update the
users table via `allow_users` and reactivate the user's cars via
`allow_cars`; finally notify the user, the group and the administrator. -/
def allow_access (p : PendingMap) (db : DB) (adminId : Int) (uid : Int)
    (now : String) : AllowResult :=
  let r := get_source_chat_id p db uid
  match r.result with
  | none => ⟨db, r.pending, [], [uid], true⟩
  | some src =>
    let p1 := psetStatus r.pending uid "approved"
    let db1 : DB :=
      match findHouse db src with
      | none => db
      | some h =>
        {db with users := allow_users db uid h.id now,
                 cars := allow_cars uid now (allow_users db uid h.id now) db.cars}
    ⟨db1, p1, [(src, uid)], [uid, src, adminId], false⟩

/-- Result of `deny_access`: store, sessions, the (chat, user) kick and
unban calls, and the recipients of messages in order. -/
structure DenyResult where
  db : DB
  pending : PendingMap
  kicks : List (Int × Int)
  unbans : List (Int × Int)
  sends : List Int
  deferred : Bool
deriving Repr, DecidableEq

/-- `deny_access` (main.py:586-636): resolve the source chat (deferring
with a wait notice when unresolved).  The house id is looked up from
`call.message.chat.id` — the chat holding the pressed button, which is the
administrator's private chat, passed here as `callChatId` — and
`UPDATE users SET date_del = ? WHERE tg_id = ? AND house = ?` is run with
it (`house = NULL` matches no row).  The user is then kicked from and
immediately unbanned in the resolved source chat, and the user, the group
and the administrator are notified.  `pending_users` is not cleared.  No
`cars` row is touched. -/
def deny_access (p : PendingMap) (db : DB) (callChatId : Int) (adminId : Int)
    (uid : Int) (now : String) : DenyResult :=
  let r := get_source_chat_id p db uid
  match r.result with
  | none => ⟨db, r.pending, [], [], [uid], true⟩
  | some src =>
    let houseId := (findHouse db callChatId).map (fun h => h.id)
    let users1 := db.users.map (fun u =>
      if u.tg_id == uid && sqlEqOpt u.house houseId then
        {u with date_del := some now} else u)
    ⟨{db with users := users1}, r.pending, [(src, uid)], [(src, uid)],
     [uid, src, adminId], false⟩

/-- Result of `left_member_handler`: store and sessions. -/
structure LeftResult where
  db : DB
  pending : PendingMap
deriving Repr, DecidableEq

/-- The users update of `left_member_handler` (main.py:722-739): set
`date_del` on the user's row for the chat's house, or on all the user's
rows when the chat has no house. -/
def left_users (db : DB) (chatId uid : Int) (now : String) : List UserRow :=
  match (findHouse db chatId).map (fun h => h.id) with
  | some hid => db.users.map (fun u =>
      if u.tg_id == uid && u.house == some hid then
        {u with date_del := some now} else u)
  | none => db.users.map (fun u =>
      if u.tg_id == uid then {u with date_del := some now} else u)

/-- The cars update of `left_member_handler` (main.py:742-751): when the
count of the user's remaining active rows (`date_del IS NULL OR
date_del = ''`) in the updated users table is zero, set `date_del` on
every car whose owner is any of the user's rows. -/
def left_cars (db : DB) (uid : Int) (now : String)
    (users1 : List UserRow) : List CarRow :=
  if (users1.filter (fun u => u.tg_id == uid && isActiveDel u.date_del)).length = 0 then
    db.cars.map (fun c =>
      if users1.any (fun u => u.tg_id == uid && u.id == c.user) then
        {c with date_del := some now} else c)
  else db.cars

/-- `left_member_handler` (main.py:707-762): on a left-chat event, update
the users table via `left_users`, cascade to the cars table via
`left_cars` when no active row remains, and delete the user from
`pending_users`. -/
def left_member_handler (db : DB) (p : PendingMap) (chatId : Int) (uid : Int)
    (now : String) : LeftResult :=
  ⟨{db with users := left_users db chatId uid now,
            cars := left_cars db uid now (left_users db chatId uid now)},
   perase p uid⟩

/-- The store effect of `not_residing_handler` (main.py:805-832): set
`date_del` on every row of the user (`WHERE tg_id = ?`, all houses), then
on the still-active cars of the first fetched row of the user only. -/
def not_residing_db (db : DB) (uid : Int) (now : String) : DB :=
  let users1 : List UserRow := db.users.map (fun u =>
    if u.tg_id == uid then {u with date_del := some now} else u)
  let cars1 : List CarRow :=
    match users1.find? (fun u => u.tg_id == uid) with
    | some r => db.cars.map (fun c =>
        if c.user == r.id && isActiveDel c.date_del then
          {c with date_del := some now} else c)
    | none => db.cars
  {db with users := users1, cars := cars1}

/-!  ## Claim C1 — administrator denial

The deny button is attached only to the photo message that `photo_handler`
sends to `ADMIN_ID`, so for this callback `call.message.chat.id` is always
the administrator's private chat, never the house chat.  The scenario
below is the canonical one: user 42 is a pending candidate of house chat
`-1001` (house id 1, active Resident row) and the administrator (chat id
777, which is not a registered house chat) presses Deny.  -/

/-- House chat `-1001` of the C1 scenario. -/
def houseC1 : House := ⟨1, -1001, none, none, none, some "2024-01-01", none⟩

/-- Active Resident row of user 42 in house 1 (C1 scenario). -/
def residentC1 : UserRow :=
  ⟨1, 42, some "Ivan", some "Petrov", some 1, some "42", some "+79001234567",
   some "2024-01-01", none⟩

/-- C1 scenario database. -/
def dbC1 : DB := ⟨[houseC1], [residentC1], []⟩

/-- C1 scenario sessions: user 42 is `photo_sent` with source chat `-1001`. -/
def pC1 : PendingMap := [(42, ⟨some "photo_sent", some (-1001), none⟩)]

/-- C1: when the administrator (chat 777) denies pending candidate 42 of
house chat `-1001`, the user is kicked from and unbanned in the house
chat, the user, the house chat and the administrator are messaged, and the
session is retained — but the Resident row is returned unchanged: its
`date_del` stays NULL, because the handler looks the house up from the
callback chat (the administrator's private chat) and the update matches no
row.  This refutes the claim's "the Resident row for that user and that
house gets date_del set" and contradicts the handler's own docstring. -/
theorem deny_access_leaves_resident_active :
    (deny_access pC1 dbC1 777 777 42 "2024-02-01").db.users = [residentC1]
    ∧ residentC1.date_del = none
    ∧ (deny_access pC1 dbC1 777 777 42 "2024-02-01").kicks = [(-1001, 42)]
    ∧ (deny_access pC1 dbC1 777 777 42 "2024-02-01").unbans = [(-1001, 42)]
    ∧ (deny_access pC1 dbC1 777 777 42 "2024-02-01").sends = [42, -1001, 777]
    ∧ (deny_access pC1 dbC1 777 777 42 "2024-02-01").pending = pC1 := by
  decide

/-!  ## Claim C2 — denial does not cascade to vehicles  -/

/-- House chat `-1002` of the C2 scenario. -/
def houseC2 : House := ⟨1, -1002, none, none, none, some "t0", none⟩

/-- Active Resident row of user 43 in house 1 (C2 scenario). -/
def residentC2 : UserRow :=
  ⟨1, 43, some "Olga", none, some 1, some "7", none, some "t0", none⟩

/-- Active Vehicle row owned by Resident row 1 (C2 scenario). -/
def carC2 : CarRow := ⟨1, 1, "o777oo99", none, none⟩

/-- C2 scenario database. -/
def dbC2 : DB := ⟨[houseC2], [residentC2], [carC2]⟩

/-- C2 scenario sessions. -/
def pC2 : PendingMap := [(43, ⟨some "photo_sent", some (-1002), none⟩)]

/-- C2 counterexample: user 43 holds one active Vehicle owned by their
Resident row in house 1; after the denial path runs, that vehicle still
has `date_del = NULL` — the claimed cascade ("sets date_del on every
active Vehicle row owned by that Resident row") does not happen. -/
theorem deny_access_vehicle_cascade_cex :
    (deny_access pC2 dbC2 777 777 43 "T").db.cars = [carC2]
    ∧ carC2.date_del = none
    ∧ carC2.user = residentC2.id
    ∧ residentC2.house = some houseC2.id := by
  decide

/-- C2 amended: the denial path performs no vehicle cascade at all —
`deny_access` leaves the cars table unchanged in every case. -/
theorem deny_access_cars_unchanged (p : PendingMap) (db : DB)
    (callChatId adminId uid : Int) (now : String) :
    (deny_access p db callChatId adminId uid now).db.cars = db.cars := by
  unfold deny_access
  cases h : (get_source_chat_id p db uid).result <;> simp [h]

/-!  ## Claim C3 — photo submission outside the accepting statuses  -/

/-- C3 scenario database: user 44 registered in house chat `-1003`. -/
def dbC3 : DB :=
  ⟨[⟨1, -1003, none, none, none, some "t0", none⟩],
   [⟨1, 44, some "A", none, some 1, none, none, some "t0", none⟩], []⟩

/-- C3 scenario sessions. -/
def pC3 : PendingMap := [(44, ⟨some "photo_sent", some (-1003), none⟩)]

/-- C3 counterexample: a duplicate photo while the status is already
`photo_sent` produces no state change and no admin notification — but
also no message to the user at all (`userSends = 0`), refuting the
claim's "does send the user a reminder message": the source has no else
branch for the status test. -/
theorem photo_duplicate_no_reminder_cex :
    photo_handler pC3 dbC3 44 (some (.status "photo_sent")) false = ⟨none, 0, 0⟩
    ∧ ¬ 0 < (photo_handler pC3 dbC3 44 (some (.status "photo_sent")) false).userSends := by
  decide

/-- C3 amended: a photo submitted while the status is anything other than
`awaiting_photo` or `awaiting_new_photo` is a fully silent no-op: no state
change, no admin notification, and no message to the user either. -/
theorem photo_out_of_status_silent (p : PendingMap) (db : DB) (uid : Int)
    (st : Option UserState) (isBot : Bool)
    (h1 : st ≠ some (.status "awaiting_photo"))
    (h2 : st ≠ some (.status "awaiting_new_photo")) :
    photo_handler p db uid st isBot = ⟨none, 0, 0⟩ := by
  have h1' : (st == some (UserState.status "awaiting_photo")) = false :=
    beq_eq_false_iff_ne.mpr h1
  have h2' : (st == some (UserState.status "awaiting_new_photo")) = false :=
    beq_eq_false_iff_ne.mpr h2
  simp [photo_handler, h1', h2']

/-- C3 witness: the silent no-op at the concrete `photo_sent` status. -/
theorem photo_out_of_status_silent_witness :
    photo_handler pC3 dbC3 44 (some (.status "photo_sent")) true = ⟨none, 0, 0⟩ :=
  photo_out_of_status_silent pC3 dbC3 44 (some (.status "photo_sent")) true
    (by decide) (by decide)

/-!  ## Claim C4 — upsert semantics of the name step  -/

/-- `find?` commutes with a map that does not change the predicate's
verdict. -/
theorem find?_map_pres {α : Type} (l : List α) (f : α → α) (p : α → Bool)
    (hp : ∀ a, p (f a) = p a) : (l.map f).find? p = (l.find? p).map f := by
  rw [List.find?_map]
  have hfun : (p ∘ f) = p := funext hp
  rw [hfun]

/-- House chat `-1004` of the C4 scenario. -/
def houseC4 : House := ⟨1, -1004, none, none, none, some "t0", none⟩

/-- Resident row of user 45 in house 1 with a prior soft-delete mark
(C4 scenario). -/
def residentC4 : UserRow :=
  ⟨1, 45, some "Old", none, some 1, none, none, some "t0", some "2023-05-01"⟩

/-- C4 scenario database. -/
def dbC4 : DB := ⟨[houseC4], [residentC4], []⟩

/-- C4 counterexample: upserting user 45 twice for the key
`(45, house 1)` (whose row carries `date_del = "2023-05-01"`) does update
the same single row in place, but the prior `date_del` is NOT cleared —
it is still `"2023-05-01"` after both calls, refuting the claim's
"clears any prior date_del on that row". -/
theorem upsert_no_date_del_clear_cex :
    ((process_name_db (process_name_db dbC4 45 "Ivan" (some (-1004)) "T1")
        45 "Ivan" (some (-1004)) "T2").users.map (fun u => u.date_del))
      = [some "2023-05-01"]
    ∧ (process_name_db (process_name_db dbC4 45 "Ivan" (some (-1004)) "T1")
        45 "Ivan" (some (-1004)) "T2").users.length = 1 := by
  decide

/-- C4 amended: when a row for `(externalUserId, houseId)` exists, two
upserts with that key update the same row in place — the row count is
unchanged and the row gets the new name with a refreshed `date_add` — but
`date_del` is left exactly as it was; when no row for the key exists, a
new row is inserted carrying only `tg_id` and `name`, with `house`,
`date_add` and `date_del` all left NULL (so `date_add` is not set to the
current time). -/
theorem upsert_in_place_amended :
    (∀ (db : DB) (uid : Int) (name name2 : String) (c : Int) (h : House)
       (r : UserRow) (now now2 : String),
       (db.users.map (fun u => u.id)).Nodup →
       db.houses.find? (fun x => x.chat_id == c) = some h →
       findUserRowByKey db uid (some h.id) = some r →
       ((process_name_db (process_name_db db uid name (some c) now)
           uid name2 (some c) now2).users.length = db.users.length
        ∧ ∀ u ∈ (process_name_db (process_name_db db uid name (some c) now)
             uid name2 (some c) now2).users,
            u.id = r.id →
              u.name = some name2 ∧ u.date_add = some now2
              ∧ u.date_del = r.date_del))
    ∧ (∀ (db : DB) (uid : Int) (name : String) (c : Int) (h : House)
       (now : String),
       db.houses.find? (fun x => x.chat_id == c) = some h →
       findUserRowByKey db uid (some h.id) = none →
       process_name_db db uid name (some c) now =
         {db with users := db.users ++
           [⟨nextUserId db, uid, some name, none, none, none, none, none,
             none⟩]}) := by
  constructor
  · intro db uid name name2 c h r now now2 hnodup hh hfind
    have hfind' : db.users.find?
        (fun u => u.tg_id == uid && u.house == some h.id) = some r := hfind
    have hrmem : r ∈ db.users := List.mem_of_find?_eq_some hfind'
    have e1 : process_name_db db uid name (some c) now =
        {db with users := db.users.map (updNameRow name now r.id)} := by
      simp [process_name_db, ensureHouse, hh, findUserRowByKey, hfind']
    have hfind2 : (db.users.map (updNameRow name now r.id)).find?
        (fun u => u.tg_id == uid && u.house == some h.id)
        = some (updNameRow name now r.id r) := by
      rw [find?_map_pres]
      · rw [hfind']
        rfl
      · intro a
        by_cases hc : (a.id == r.id) = true <;> simp [updNameRow, hc]
    have hridsame : (updNameRow name now r.id r).id = r.id := by
      simp [updNameRow]
    have e2 : process_name_db (process_name_db db uid name (some c) now)
        uid name2 (some c) now2 =
        {db with users := List.map (updNameRow name2 now2 r.id) (List.map (updNameRow name now r.id) db.users)} := by
      rw [e1]
      simp [process_name_db, ensureHouse, hh, findUserRowByKey, hfind2,
        hridsame]
    rw [e2]
    constructor
    · simp
    · intro u hu hid
      simp only [List.mem_map] at hu
      obtain ⟨v, ⟨w, hw, hv⟩, hu⟩ := hu
      by_cases hc : (w.id == r.id) = true
      · have hwid : w.id = r.id := beq_iff_eq.mp hc
        have hwr : w = r :=
          List.inj_on_of_nodup_map hnodup hw hrmem hwid
        subst hv
        subst hu
        simp [updNameRow, hc, hwr]
      · subst hv
        have hvw : updNameRow name now r.id w = w := by
          simp [updNameRow, hc]
        rw [hvw] at hu
        have huw : u = w := by
          rw [← hu]; simp [updNameRow, hc]
        have hwid : w.id = r.id := by rw [← huw]; exact hid
        exact absurd (beq_iff_eq.mpr hwid) hc
  · intro db uid name c h now hh hfind
    have hfind' : db.users.find?
        (fun u => u.tg_id == uid && u.house == some h.id) = none := hfind
    simp [process_name_db, ensureHouse, hh, findUserRowByKey, hfind']

/-- Resident row with a soft-delete mark used by the C4 witness. -/
def residentC4w : UserRow :=
  ⟨1, 46, some "Old", none, some 1, none, none, some "t0", some "2022-01-01"⟩

/-- C4 witness database for the update branch. -/
def dbC4w : DB := ⟨[⟨1, -1014, none, none, none, some "t0", none⟩], [residentC4w], []⟩

/-- C4 witness database for the insert branch (no row for the key). -/
def dbC4i : DB := ⟨[⟨1, -1015, none, none, none, some "t0", none⟩], [], []⟩

/-- C4 witness: both branches of the amended upsert theorem applied at
concrete inputs with the hypotheses discharged by evaluation. -/
theorem upsert_in_place_amended_witness :
    ((dbC4w.users.map (fun u => u.id)).Nodup
     ∧ findUserRowByKey dbC4w 46 (some 1) = some residentC4w
     ∧ ((process_name_db (process_name_db dbC4w 46 "Ivan" (some (-1014)) "T1")
           46 "Petr" (some (-1014)) "T2").users.length = dbC4w.users.length
        ∧ ∀ u ∈ (process_name_db (process_name_db dbC4w 46 "Ivan" (some (-1014)) "T1")
             46 "Petr" (some (-1014)) "T2").users,
            u.id = residentC4w.id →
              u.name = some "Petr" ∧ u.date_add = some "T2"
              ∧ u.date_del = residentC4w.date_del))
    ∧ (findUserRowByKey dbC4i 46 (some 1) = none
       ∧ process_name_db dbC4i 46 "Ivan" (some (-1015)) "T1" =
         {dbC4i with users := dbC4i.users ++
           [⟨nextUserId dbC4i, 46, some "Ivan", none, none, none, none, none,
             none⟩]}) :=
  ⟨⟨by decide, rfl,
    upsert_in_place_amended.1 dbC4w 46 "Ivan" "Petr" (-1014)
      ⟨1, -1014, none, none, none, some "t0", none⟩ residentC4w "T1" "T2"
      (by decide) rfl rfl⟩,
   ⟨rfl,
    upsert_in_place_amended.2 dbC4i 46 "Ivan" (-1015)
      ⟨1, -1015, none, none, none, some "t0", none⟩ "T1" rfl rfl⟩⟩

/-!  ## Claim C5 — multi-house ambiguity is never auto-resolved  -/

/-- A resident row whose house reference resolves contributes that house's
chat id to the resolver's join result. -/
theorem chat_mem_userHouseRows (db : DB) (uid : Int) (u : UserRow) (hid : Nat)
    (h : House) (hu : u ∈ db.users) (ht : u.tg_id = uid)
    (hho : u.house = some hid)
    (hf : db.houses.find? (fun x => x.id == hid) = some h) :
    h.chat_id ∈ (userHouseRows db uid).map (fun r => r.1) := by
  have hmem : (h.chat_id, h.house_name) ∈ userHouseRows db uid := by
    rw [userHouseRows, List.mem_filterMap]
    refine ⟨u, hu, ?_⟩
    simp [ht, hho, hf]
  exact List.mem_map.mpr ⟨_, hmem, rfl⟩

/-- A list holding two distinct elements has more than one element. -/
theorem one_lt_length_of_two_mem {α : Type} {l : List α} {a b : α}
    (ha : a ∈ l) (hb : b ∈ l) (hne : a ≠ b) : 1 < l.length := by
  cases l with
  | nil => cases ha
  | cons x t =>
    cases t with
    | nil =>
      simp only [List.mem_singleton] at ha hb
      rw [ha, hb] at hne
      exact absurd rfl hne
    | cons y t2 =>
      simp only [List.length_cons]
      omega

/-- C5: for a user holding active Resident rows in two houses with
distinct chat ids, resolving with no cached session returns unresolved,
offers both chat ids to the administrator, and caches nothing — neither
house is auto-selected. -/
theorem resolve_ambiguous_no_autoselect (p : PendingMap) (db : DB) (uid : Int)
    (u1 u2 : UserRow) (hid1 hid2 : Nat) (h1 h2 : House)
    (hnc : sessionSource p uid = none)
    (hu1 : u1 ∈ db.users) (ht1 : u1.tg_id = uid) (hho1 : u1.house = some hid1)
    (hf1 : db.houses.find? (fun x => x.id == hid1) = some h1)
    (ha1 : u1.date_del = none)
    (hu2 : u2 ∈ db.users) (ht2 : u2.tg_id = uid) (hho2 : u2.house = some hid2)
    (hf2 : db.houses.find? (fun x => x.id == hid2) = some h2)
    (ha2 : u2.date_del = none)
    (hne : h1.chat_id ≠ h2.chat_id) :
    (get_source_chat_id p db uid).result = none
    ∧ h1.chat_id ∈ (get_source_chat_id p db uid).adminOptions
    ∧ h2.chat_id ∈ (get_source_chat_id p db uid).adminOptions
    ∧ (get_source_chat_id p db uid).pending = p := by
  have hm1 := chat_mem_userHouseRows db uid u1 hid1 h1 hu1 ht1 hho1 hf1
  have hm2 := chat_mem_userHouseRows db uid u2 hid2 h2 hu2 ht2 hho2 hf2
  have hlen : 1 < (userHouseRows db uid).length := by
    have hlt := one_lt_length_of_two_mem hm1 hm2 hne
    simpa using hlt
  rcases hrows : userHouseRows db uid with _ | ⟨a, _ | ⟨b, t⟩⟩
  · rw [hrows] at hlen; simp at hlen
  · rw [hrows] at hlen; simp at hlen
  · rw [hrows] at hm1 hm2
    simp only [get_source_chat_id, hnc, hrows]
    exact ⟨trivial, hm1, hm2, trivial⟩

/-- C5 witness: user 50 has active rows in houses `-2001` and `-2002`. -/
def dbC5 : DB :=
  ⟨[⟨1, -2001, some "A", none, none, some "t", none⟩,
    ⟨2, -2002, some "B", none, none, some "t", none⟩],
   [⟨1, 50, some "N", none, some 1, none, none, some "t", none⟩,
    ⟨2, 50, some "N", none, some 2, none, none, some "t", none⟩], []⟩

/-- C5 witness: the ambiguity theorem applied at the concrete two-house
database with an empty session store. -/
theorem resolve_ambiguous_no_autoselect_witness :
    sessionSource [] 50 = none
    ∧ ((get_source_chat_id [] dbC5 50).result = none
       ∧ (-2001 : Int) ∈ (get_source_chat_id [] dbC5 50).adminOptions
       ∧ (-2002 : Int) ∈ (get_source_chat_id [] dbC5 50).adminOptions
       ∧ (get_source_chat_id [] dbC5 50).pending = []) :=
  ⟨rfl,
   resolve_ambiguous_no_autoselect [] dbC5 50
     ⟨1, 50, some "N", none, some 1, none, none, some "t", none⟩
     ⟨2, 50, some "N", none, some 2, none, none, some "t", none⟩
     1 2
     ⟨1, -2001, some "A", none, none, some "t", none⟩
     ⟨2, -2002, some "B", none, none, some "t", none⟩
     rfl (by decide) rfl rfl rfl rfl (by decide) rfl rfl rfl rfl
     (by decide)⟩



/-!  ## Claim C6 — departure handling  -/

/-- Erasing a user's entry makes the session lookup fail. -/
theorem pfind_perase (p : PendingMap) (uid : Int) :
    pfind (perase p uid) uid = none := by
  have h : (perase p uid).find? (fun e => e.1 == uid) = none := by
    rw [List.find?_eq_none]
    intro x hx
    rw [perase] at hx
    have hpx := List.of_mem_filter hx
    simpa using hpx
  simp [pfind, h]

/-- C6: on a left-chat event in a chat whose house is registered, every
row of the user for that house gets `date_del = now`; when afterwards the
user has no active row left in any house, every car owned by any of the
user's rows gets `date_del = now`; and the user's Candidate Session is
cleared. -/
theorem left_member_spec (db : DB) (p : PendingMap) (chatId uid : Int)
    (now : String) (h : House) (hh : findHouse db chatId = some h) :
    (∀ u ∈ (left_member_handler db p chatId uid now).db.users,
        u.tg_id = uid → u.house = some h.id → u.date_del = some now)
    ∧ ((∀ u ∈ (left_member_handler db p chatId uid now).db.users,
          u.tg_id = uid → isActiveDel u.date_del = false) →
        ∀ c ∈ (left_member_handler db p chatId uid now).db.cars,
          (∃ u ∈ (left_member_handler db p chatId uid now).db.users,
             u.tg_id = uid ∧ u.id = c.user) → c.date_del = some now)
    ∧ pfind (left_member_handler db p chatId uid now).pending uid = none := by
  have husers : left_users db chatId uid now
      = db.users.map (fun u =>
          if u.tg_id == uid && u.house == some h.id then
            {u with date_del := some now} else u) := by
    unfold left_users
    rw [hh]
    rfl
  have hgetu : (left_member_handler db p chatId uid now).db.users
      = left_users db chatId uid now := rfl
  refine ⟨?_, ?_, ?_⟩
  · intro u hu ht hhse
    rw [hgetu, husers] at hu
    rw [List.mem_map] at hu
    obtain ⟨v, hv, rfl⟩ := hu
    by_cases hc : (v.tg_id == uid && v.house == some h.id) = true
    · simp [hc]
    · have ht' : v.tg_id = uid := by simpa [hc] using ht
      have hh' : v.house = some h.id := by simpa [hc] using hhse
      exact absurd (by simp [ht', hh']) hc
  · intro hall c hcmem hex
    rw [hgetu] at hall hex
    have hcount : ((left_users db chatId uid now).filter
        (fun u => u.tg_id == uid && isActiveDel u.date_del)).length = 0 := by
      rw [List.length_eq_zero, List.filter_eq_nil_iff]
      intro a hamem hpred
      have hat : a.tg_id = uid :=
        beq_iff_eq.mp ((Bool.and_eq_true _ _).mp hpred).1
      have hact : isActiveDel a.date_del = true :=
        ((Bool.and_eq_true _ _).mp hpred).2
      rw [hall a hamem hat] at hact
      cases hact
    have hcars : (left_member_handler db p chatId uid now).db.cars
        = db.cars.map (fun c =>
            if (left_users db chatId uid now).any
                (fun u => u.tg_id == uid && u.id == c.user) then
              {c with date_del := some now} else c) := by
      show left_cars db uid now (left_users db chatId uid now) = _
      unfold left_cars
      rw [if_pos hcount]
    rw [hcars] at hcmem
    rw [List.mem_map] at hcmem
    obtain ⟨c0, hc0, rfl⟩ := hcmem
    by_cases hany : ((left_users db chatId uid now).any
        (fun u => u.tg_id == uid && u.id == c0.user)) = true
    · simp [hany]
    · exfalso
      obtain ⟨u, humem, hut, huid⟩ := hex
      have huser : u.id = c0.user := by simpa [hany] using huid
      exact hany (List.any_eq_true.mpr ⟨u, humem, by simp [hut, huser]⟩)
  · simpa [left_member_handler] using pfind_perase p uid

/-- C6 witness scenario: user 51's only house is chat `-3001`; they own
one car and leave that chat. -/
def dbC6 : DB :=
  ⟨[⟨1, -3001, none, none, none, some "t", none⟩],
   [⟨1, 51, some "N", none, some 1, none, none, some "t", none⟩],
   [⟨1, 1, "k111kk11", none, none⟩]⟩

/-- C6 witness sessions. -/
def pC6 : PendingMap := [(51, ⟨some "approved", some (-3001), none⟩)]

/-- C6 witness: the departure theorem applied at the concrete one-house
database, all hypotheses discharged by evaluation. -/
theorem left_member_spec_witness :
    findHouse dbC6 (-3001) = some ⟨1, -3001, none, none, none, some "t", none⟩
    ∧ ((∀ u ∈ (left_member_handler dbC6 pC6 (-3001) 51 "T").db.users,
          u.tg_id = 51 → u.house = some (1 : Nat) → u.date_del = some "T")
       ∧ ((∀ u ∈ (left_member_handler dbC6 pC6 (-3001) 51 "T").db.users,
             u.tg_id = 51 → isActiveDel u.date_del = false) →
           ∀ c ∈ (left_member_handler dbC6 pC6 (-3001) 51 "T").db.cars,
             (∃ u ∈ (left_member_handler dbC6 pC6 (-3001) 51 "T").db.users,
                u.tg_id = 51 ∧ u.id = c.user) → c.date_del = some "T")
       ∧ pfind (left_member_handler dbC6 pC6 (-3001) 51 "T").pending 51 = none) :=
  ⟨rfl,
   left_member_spec dbC6 pC6 (-3001) 51 "T"
     ⟨1, -3001, none, none, none, some "t", none⟩ rfl⟩

/-!  ## Claim C7 — apartment validation  -/

/-- C7: an input whose trimmed text parses as an integer n with
1 ≤ n ≤ 10000 is accepted and stored as its decimal string on the user's
rows, with the phone step following (ordinary flow); the inputs "0",
"10001" and "abc" are rejected, the database is untouched and the
apartment step itself is registered again — the same question repeats,
with no retry limit. -/
theorem process_apartment_spec :
    (∀ (db : DB) (uid : Int) (input : String) (n : Int),
       parsePyInt (pyStrip input) = some n → 1 ≤ n → n ≤ 10000 →
       process_apartment_step db uid false input
         = ⟨setApartment db uid (toString n), .phone⟩)
    ∧ (∀ (db : DB) (uid : Int) (b : Bool),
        process_apartment_step db uid b "0" = ⟨db, .apartment⟩)
    ∧ (∀ (db : DB) (uid : Int) (b : Bool),
        process_apartment_step db uid b "10001" = ⟨db, .apartment⟩)
    ∧ (∀ (db : DB) (uid : Int) (b : Bool),
        process_apartment_step db uid b "abc" = ⟨db, .apartment⟩) := by
  refine ⟨?_, ?_, ?_, ?_⟩
  · intro db uid input n hp h1 h2
    simp only [process_apartment_step, hp]
    rw [if_neg (by omega : ¬ (n < 1 ∨ n > 10000))]
    rfl
  · intro db uid b
    rfl
  · intro db uid b
    rfl
  · intro db uid b
    rfl

/-- C7 witness database: user 52 with one resident row. -/
def dbC7 : DB :=
  ⟨[⟨1, -4001, none, none, none, some "t", none⟩],
   [⟨1, 52, some "N", none, some 1, none, none, some "t", none⟩], []⟩

/-- C7 witness: the accepting branch applied at the concrete input
`" 42 "`, with the parse hypothesis discharged by evaluation. -/
theorem process_apartment_spec_witness :
    parsePyInt (pyStrip " 42 ") = some 42
    ∧ process_apartment_step dbC7 52 false " 42 "
        = ⟨setApartment dbC7 52 (toString (42 : Int)), RegStep.phone⟩ :=
  ⟨by decide, process_apartment_spec.1 dbC7 52 " 42 " 42 (by decide)
    (by decide) (by decide)⟩

/-!  ## Claim C8 — vehicle count and plate collection  -/

/-- Running the car-number loop from `current_car = cur` with exactly
`c - cur + 1` valid plates (3 to 15 characters after stripping) while a
users row for the id exists: the flow finalizes (photo request, state
`awaiting_photo`) and appends exactly one cars row per input, leaving the
users and houses tables unchanged. -/
theorem runCarNumbers_spec (uid : Int) (c : Nat) :
    ∀ (inputs : List String) (db : DB) (cur : Nat),
      1 ≤ cur → cur ≤ c → inputs.length = c - cur + 1 →
      (∀ i ∈ inputs, 3 ≤ (pyStrip i).length ∧ (pyStrip i).length ≤ 15) →
      db.users.any (fun u => u.tg_id == uid) = true →
      (runCarNumbers db (.carLoop c cur) uid inputs).next = .photo
      ∧ (runCarNumbers db (.carLoop c cur) uid inputs).ustate
          = .status "awaiting_photo"
      ∧ (runCarNumbers db (.carLoop c cur) uid inputs).db.cars.length
          = db.cars.length + inputs.length
      ∧ (runCarNumbers db (.carLoop c cur) uid inputs).db.users = db.users := by
  intro inputs
  induction inputs with
  | nil =>
    intro db cur h1 h2 hlen hvalid hex
    simp only [List.length_nil] at hlen
    omega
  | cons i rest ih =>
    intro db cur h1 h2 hlen hvalid hex
    have hv := hvalid i (List.mem_cons_self i rest)
    have hlencond : ¬ ((pyStrip i).length < 3 ∨ (pyStrip i).length > 15) := by
      omega
    obtain ⟨r, hfind⟩ : ∃ r, db.users.find? (fun u => u.tg_id == uid) = some r := by
      cases hf : db.users.find? (fun u => u.tg_id == uid) with
      | some r => exact ⟨r, rfl⟩
      | none =>
        rw [List.find?_eq_none] at hf
        obtain ⟨u, hu, hp⟩ := List.any_eq_true.mp hex
        exact absurd hp (hf u hu)
    have hstep : process_car_number db (.carLoop c cur) uid i
        = (if cur + 1 ≤ c then
             (⟨{db with cars := db.cars ++ [⟨nextCarId db, r.id, pyStrip i, none, none⟩]},
               .carLoop c (cur + 1), .carNumber,
               [.carNumberPrompt (cur + 1)]⟩ : CarNumRes)
           else
             ⟨{db with cars := db.cars ++ [⟨nextCarId db, r.id, pyStrip i, none, none⟩]},
              .status "awaiting_photo", .photo, [.finalizePhotoRequest]⟩) := by
      simp only [process_car_number, hfind]
      rw [if_neg hlencond]
    by_cases hcc : cur + 1 ≤ c
    · have hrun : runCarNumbers db (.carLoop c cur) uid (i :: rest)
          = runCarNumbers
              {db with cars := db.cars ++ [⟨nextCarId db, r.id, pyStrip i, none, none⟩]}
              (.carLoop c (cur + 1)) uid rest := by
        simp only [runCarNumbers, hstep, if_pos hcc]
      have hrest := ih
        {db with cars := db.cars ++ [⟨nextCarId db, r.id, pyStrip i, none, none⟩]}
        (cur + 1) (by omega) hcc
        (by simp only [List.length_cons] at hlen; omega)
        (fun j hj => hvalid j (List.mem_cons_of_mem i hj))
        hex
      rw [hrun]
      refine ⟨hrest.1, hrest.2.1, ?_, hrest.2.2.2⟩
      rw [hrest.2.2.1]
      simp
      omega
    · have hcur : cur = c := by omega
      have hrest0 : rest.length = 0 := by
        simp only [List.length_cons] at hlen
        omega
      have hrun : runCarNumbers db (.carLoop c cur) uid (i :: rest)
          = ⟨{db with cars := db.cars ++ [⟨nextCarId db, r.id, pyStrip i, none, none⟩]},
             .status "awaiting_photo", .photo, [.finalizePhotoRequest]⟩ := by
        simp only [runCarNumbers, hstep, if_neg hcc]
      rw [hrun]
      refine ⟨rfl, rfl, ?_, rfl⟩
      have hnil : rest = [] := List.length_eq_zero.mp hrest0
      subst hnil
      simp

/-- C8: a vehicle count of 0 goes straight to `finalize_questionnaire` —
the photo-request message, state `awaiting_photo`, no state dictionary for
a car loop and no database change; a count c with 1 ≤ c ≤ 10 stores the
car dictionary and, after exactly c valid plates, exactly c Vehicle rows
have been appended and the flow finalizes with the photo request. -/
theorem car_flow_spec :
    (∀ (db : DB) (uid : Int),
        process_car_count db uid "0"
          = ⟨db, some (.status "awaiting_photo"), .photo,
             [.notMotorist, .finalizePhotoRequest]⟩)
    ∧ (∀ (db : DB) (uid : Int) (c : Nat) (inputs : List String),
        1 ≤ c → c ≤ 10 → inputs.length = c →
        (∀ i ∈ inputs, 3 ≤ (pyStrip i).length ∧ (pyStrip i).length ≤ 15) →
        db.users.any (fun u => u.tg_id == uid) = true →
        process_car_count db uid (toString c)
            = ⟨db, some (.carLoop c 1), .carNumber, [.carNumberPrompt 1]⟩
        ∧ (runCarNumbers db (.carLoop c 1) uid inputs).db.cars.length
            = db.cars.length + c
        ∧ (runCarNumbers db (.carLoop c 1) uid inputs).ustate
            = .status "awaiting_photo"
        ∧ (runCarNumbers db (.carLoop c 1) uid inputs).next = .photo) := by
  constructor
  · intro db uid
    rfl
  · intro db uid c inputs h1 h10 hlen hvalid hex
    have hcount : process_car_count db uid (toString c)
        = ⟨db, some (.carLoop c 1), .carNumber, [.carNumberPrompt 1]⟩ := by
      interval_cases c <;> rfl
    have hrun := runCarNumbers_spec uid c inputs db 1 (by omega) (by omega)
      (by omega) hvalid hex
    exact ⟨hcount, by rw [hrun.2.2.1, hlen], hrun.2.1, hrun.1⟩

/-- C8 witness database: user 53 with a resident row and no cars yet. -/
def dbC8 : DB :=
  ⟨[⟨1, -5001, none, none, none, some "t", none⟩],
   [⟨1, 53, some "N", none, some 1, none, none, some "t", none⟩], []⟩

/-- C8 witness: both branches at concrete inputs — count 0, and count 2
followed by two valid plates. -/
theorem car_flow_spec_witness :
    process_car_count dbC8 53 "0"
      = ⟨dbC8, some (.status "awaiting_photo"), .photo,
         [.notMotorist, .finalizePhotoRequest]⟩
    ∧ (process_car_count dbC8 53 (toString (2 : Nat))
         = ⟨dbC8, some (.carLoop 2 1), .carNumber, [.carNumberPrompt 1]⟩
       ∧ (runCarNumbers dbC8 (.carLoop 2 1) 53 ["a123bc", "x999xx77"]).db.cars.length
           = dbC8.cars.length + 2
       ∧ (runCarNumbers dbC8 (.carLoop 2 1) 53 ["a123bc", "x999xx77"]).ustate
           = .status "awaiting_photo"
       ∧ (runCarNumbers dbC8 (.carLoop 2 1) 53 ["a123bc", "x999xx77"]).next = .photo) :=
  ⟨car_flow_spec.1 dbC8 53,
   car_flow_spec.2 dbC8 53 2 ["a123bc", "x999xx77"] (by decide) (by decide)
     (by decide) (by decide) (by decide)⟩

/-!  ## Claim C9 — updates keyed by the external user id alone  -/

/-- C9: the surname step, the phone step, and the approval-time vehicle
reactivation all match rows by `tg_id` alone: every one of the user's
rows in every house receives the surname and the phone, and — when the
approval resolves a source chat whose house exists — every car owned by
any of the user's rows (across all houses) is reactivated with
`date_del = NULL` and a fresh `date_add`. -/
theorem tgid_wide_updates_spec (p : PendingMap) (db : DB) (adminId uid : Int)
    (s ph now : String) (src : Int) (h : House)
    (hr : (get_source_chat_id p db uid).result = some src)
    (hh : findHouse db src = some h) :
    (∀ u ∈ (process_surname_db db uid s).users, u.tg_id = uid → u.surname = some s)
    ∧ (∀ u ∈ (process_phone_db db uid ph).users, u.tg_id = uid → u.phone = some ph)
    ∧ (∀ car ∈ (allow_access p db adminId uid now).db.cars,
        (∃ u ∈ (allow_access p db adminId uid now).db.users,
           u.tg_id = uid ∧ u.id = car.user) →
        car.date_del = none ∧ car.date_add = some now) := by
  refine ⟨?_, ?_, ?_⟩
  · intro u hu ht
    simp only [process_surname_db] at hu
    rw [List.mem_map] at hu
    obtain ⟨v, hv, rfl⟩ := hu
    by_cases hc : (v.tg_id == uid) = true
    · simp [hc]
    · have hvt : v.tg_id = uid := by simpa [hc] using ht
      exact absurd (beq_iff_eq.mpr hvt) hc
  · intro u hu ht
    simp only [process_phone_db] at hu
    rw [List.mem_map] at hu
    obtain ⟨v, hv, rfl⟩ := hu
    by_cases hc : (v.tg_id == uid) = true
    · simp [hc]
    · have hvt : v.tg_id = uid := by simpa [hc] using ht
      exact absurd (beq_iff_eq.mpr hvt) hc
  · intro car hcar hex
    have hdb : (allow_access p db adminId uid now).db
        = {db with users := allow_users db uid h.id now,
                   cars := allow_cars uid now (allow_users db uid h.id now) db.cars} := by
      simp only [allow_access, hr, hh]
    rw [hdb] at hcar hex
    simp only [allow_cars] at hcar
    rw [List.mem_map] at hcar
    obtain ⟨c0, hc0, rfl⟩ := hcar
    by_cases hany : ((allow_users db uid h.id now).any
        (fun u => u.tg_id == uid && u.id == c0.user)) = true
    · simp [hany]
    · exfalso
      obtain ⟨u, humem, hut, huid⟩ := hex
      have huser : u.id = c0.user := by simpa [hany] using huid
      exact hany (List.any_eq_true.mpr ⟨u, humem, by simp [hut, huser]⟩)

/-- C9 witness database: user 54 has rows in two houses (the second
soft-deleted) and one car on each row. -/
def dbC9 : DB :=
  ⟨[⟨1, -6001, none, none, none, some "t", none⟩,
    ⟨2, -6002, none, none, none, some "t", none⟩],
   [⟨1, 54, some "N", none, some 1, none, none, some "t", none⟩,
    ⟨2, 54, some "N", none, some 2, none, none, some "t", some "d"⟩],
   [⟨1, 1, "aaa111", none, some "d"⟩, ⟨2, 2, "bbb222", none, none⟩]⟩

/-- C9 witness sessions: the source chat of user 54 is cached. -/
def pC9 : PendingMap := [(54, ⟨some "photo_sent", some (-6001), none⟩)]

/-- C9 witness: the theorem applied at the concrete two-house database,
its resolution hypotheses discharged by evaluation. -/
theorem tgid_wide_updates_spec_witness :
    (get_source_chat_id pC9 dbC9 54).result = some (-6001)
    ∧ findHouse dbC9 (-6001) = some ⟨1, -6001, none, none, none, some "t", none⟩
    ∧ ((∀ u ∈ (process_surname_db dbC9 54 "S").users, u.tg_id = 54 →
          u.surname = some "S")
       ∧ (∀ u ∈ (process_phone_db dbC9 54 "+79001112233").users, u.tg_id = 54 →
            u.phone = some "+79001112233")
       ∧ (∀ car ∈ (allow_access pC9 dbC9 777 54 "T").db.cars,
           (∃ u ∈ (allow_access pC9 dbC9 777 54 "T").db.users,
              u.tg_id = 54 ∧ u.id = car.user) →
           car.date_del = none ∧ car.date_add = some "T")) :=
  ⟨rfl, rfl,
   tgid_wide_updates_spec pC9 dbC9 777 54 "S" "+79001112233" "T" (-6001)
     ⟨1, -6001, none, none, none, some "t", none⟩ rfl rfl⟩

/-!  ## Claim C10 — empty names pass the validation  -/

/-- C10: any whitespace-only (or empty) input passes the name and surname
validation and the empty string is what gets stored: the two steps accept
it and commit `""`; and in general the validation rejects exactly the
inputs longer than 50 characters or containing a blocklisted substring —
there is no minimum length. -/
theorem empty_name_accepted (s : String) (hs : pyStrip s = "") :
    (∀ (db : DB) (uid : Int) (source : Option Int) (now : String),
        process_name_step db uid source now s
          = .ok (process_name_db db uid "" source now))
    ∧ (∀ (db : DB) (uid : Int),
        process_surname_step db uid s = .ok (process_surname_db db uid ""))
    ∧ (∀ (db : DB) (uid : Int) (u : UserRow),
        u ∈ (process_surname_db db uid "").users → u.tg_id = uid →
        u.surname = some "")
    ∧ (∀ t : String, nameRejected t = true ↔
        (50 < t.length ∨ ∃ bad ∈ banned_words, containsSub (lowerRu t) bad = true)) := by
  have hrej : nameRejected "" = false := by decide
  refine ⟨?_, ?_, ?_, ?_⟩
  · intro db uid source now
    simp [process_name_step, hs, hrej]
  · intro db uid
    simp [process_surname_step, hs, hrej]
  · intro db uid u hu ht
    simp only [process_surname_db] at hu
    rw [List.mem_map] at hu
    obtain ⟨v, hv, rfl⟩ := hu
    by_cases hc : (v.tg_id == uid) = true
    · simp [hc]
    · have hvt : v.tg_id = uid := by simpa [hc] using ht
      exact absurd (beq_iff_eq.mpr hvt) hc
  · intro t
    simp [nameRejected, List.any_eq_true]

/-- C10 witness database. -/
def dbC10 : DB :=
  ⟨[⟨1, -7001, none, none, none, some "t", none⟩],
   [⟨1, 55, some "N", none, some 1, none, none, some "t", none⟩], []⟩

/-- C10 witness: the whitespace-only input `"   "` is accepted by both
steps at a concrete database, the strip hypothesis discharged by
evaluation. -/
theorem empty_name_accepted_witness :
    pyStrip "   " = ""
    ∧ process_name_step dbC10 55 (some (-7001)) "T" "   "
        = .ok (process_name_db dbC10 55 "" (some (-7001)) "T")
    ∧ process_surname_step dbC10 55 "   "
        = .ok (process_surname_db dbC10 55 "") :=
  ⟨by decide,
   (empty_name_accepted "   " (by decide)).1 dbC10 55 (some (-7001)) "T",
   (empty_name_accepted "   " (by decide)).2.1 dbC10 55⟩
